import Mathlib

/-!
Verification development for the Netflix-to-Trakt import core.

The Python sources `NetflixTvShow.py` (history model and entry classifier)
and `TraktIO.py` (duplicate-detection cache and batched sync engine) are
shallowly embedded below: pure functions become Lean functions, the mutable
object state becomes explicit record-passing, Python sets become
duplicate-free lists maintained by `insertNew`, and the network collaborators
become explicit input parameters (lists of already-fetched payloads, plus
fault-injection parameters standing for the exceptions the `try` blocks can
observe).  The repository's `config.py` is not part of the sources, so the
configurable CSV date format is modelled as an explicit parse-function
parameter (see `demoParse`).

Numbers: all season/episode numbers and catalog (TMDB) identifiers that the
relevant code paths produce are non-negative Python ints, embedded as `Nat`.
Titles are single-line CSV fields, so the embedding of the regular
expressions ignores the newline-related corner cases of `.` and `$`.
-/

namespace N2T

/-- Insertion into a Python `set`, modelled on duplicate-free lists:
`set.add(a)` leaves the set unchanged when `a` is already present. -/
def insertNew [DecidableEq α] (l : List α) (a : α) : List α :=
  if a ∈ l then l else l ++ [a]

/-- Fold `insertNew` over a list of new elements (a sequence of `set.add`s). -/
def insertAllNew [DecidableEq α] (l : List α) (xs : List α) : List α :=
  xs.foldl insertNew l

/-- `leadMatch pat s` is true when the character list `s` starts with `pat`. -/
def leadMatch : List Char → List Char → Bool
  | [], _ => true
  | _ :: _, [] => false
  | p :: ps, c :: cs => p == c && leadMatch ps cs

/-- Case-preserving substring search: some position of `s` starts with `pat`.
Models `re.search` of a literal pattern. -/
def hasSub (s pat : List Char) : Bool :=
  (List.range (s.length + 1)).any (fun i => leadMatch pat (s.drop i))

/-- Python `str.lower()` (the titles handled here are ASCII). -/
def lowerStr (s : String) : String :=
  String.mk (s.data.map Char.toLower)

/-- Characters kept by the normalization regex class `[a-z0-9]`
(applied to an already lowercased title). -/
def lowerAl (c : Char) : Bool :=
  (decide ('a' ≤ c) && decide (c ≤ 'z')) || (decide ('0' ≤ c) && decide (c ≤ '9'))

/-- State-machine core of `re.sub(r"[^a-z0-9]+", " ", s)`: each maximal run
of characters outside `[a-z0-9]` collapses to a single space, emitted at the
start of the run (`inRun` records that the current run already emitted its
space). -/
def squashFlag : List Char → Bool → List Char
  | [], _ => []
  | c :: rest, inRun =>
    if lowerAl c then c :: squashFlag rest false
    else if inRun then squashFlag rest true
    else ' ' :: squashFlag rest true

/-- `re.sub(r"[^a-z0-9]+", " ", s)`. -/
def squashAux (l : List Char) : List Char :=
  squashFlag l false

/-! ## TraktIO: episode alias keys and the duplicate-detection query -/

/-- A composite episode key `(normalized_title, season_num, episode_num)`,
as produced by `_generate_episode_keys` in `TraktIO.py`. -/
abbrev EpKey := String × Nat × Nat

/-- `re.sub(r":.*$", "", base)`: drop everything from the first colon on. -/
def cutColon (s : String) : String :=
  String.mk (s.data.takeWhile (fun c => c ≠ ':'))

/-- Python `str.strip()`: drop leading and trailing whitespace. -/
def trimStr (s : String) : String :=
  String.mk
    (((s.data.dropWhile Char.isWhitespace).reverse.dropWhile Char.isWhitespace).reverse)

/-- `TraktIO._generate_episode_keys`: canonical and alias keys for robust
episode duplicate detection.  Base key is the lowercased title; the alias key
truncates at the first colon and strips; the normalized key keeps only
alphanumerics (runs of other characters collapse to one space) and strips.
Alias/normalized keys are added only when distinct from the earlier ones. -/
def generateEpisodeKeys (title : String) (seasonNum episodeNum : Nat) : List EpKey :=
  let base := lowerStr title
  let aliasKey := trimStr (cutColon base)
  let normalized := trimStr (String.mk (squashAux base.data))
  let keys := [(base, seasonNum, episodeNum)]
  let keys :=
    if aliasKey ≠ "" ∧ aliasKey ≠ base then keys ++ [(aliasKey, seasonNum, episodeNum)] else keys
  if normalized ≠ "" ∧ normalized ≠ base ∧ normalized ≠ aliasKey then
    keys ++ [(normalized, seasonNum, episodeNum)]
  else keys

/-- The alias-key fallback loop of `TraktIO.isEpisodeWatched`: guard against an
unknown episode number, then check every generated alias key against the
episode key-set. -/
def aliasQuery (epKeys : List EpKey) (showName : String) (seasonNumber : Nat)
    (episodeNumber : Option Nat) : Bool :=
  match episodeNumber with
  | none => false
  | some e => (generateEpisodeKeys showName seasonNumber e).any (fun k => decide (k ∈ epKeys))

/-- `TraktIO.isEpisodeWatched`: primary TMDB-identifier detection first
(before any other guard), then the alias-key fallback. -/
def isEpisodeWatched (epKeys : List EpKey) (tmdbIds : List Nat) (showName : String)
    (seasonNumber : Nat) (episodeNumber : Option Nat) (tmdbId : Option Nat) : Bool :=
  match tmdbId with
  | some t => if t ∈ tmdbIds then true else aliasQuery epKeys showName seasonNumber episodeNumber
  | none => aliasQuery epKeys showName seasonNumber episodeNumber

/-- `TraktIO.isMovieWatched`. -/
def isMovieWatched (watchedMovies : List Nat) (tmdbId : Nat) : Bool :=
  tmdbId ∈ watchedMovies

/-! ## TraktIO: cache state, history hydration and `cacheWatchedHistory`

The remote collaborator (`trakt.py`) is replaced by explicit inputs: the
already-normalized watched-shows snapshot, the movie snapshot, and the
flattened `sync/history` pages.  Exceptions inside the `try` blocks are
modelled by fault-injection parameters (`Option Nat`: `some k` means the
processing raises after `k` items).  The `…Calls`/`…Runs` fields are ghost
observation counters recording how often the episode-history backfill was
invoked and how often it actually executed (passed its guard). -/

/-- One watched-show entry after `_iter_seasons`/`_iter_episodes`
normalization: a title and, per season, an optional season number together
with the episodes as (optional episode number, optional TMDB id).  Entries
whose season or episode number is `none` are skipped by the cache builder,
mirroring the `continue` statements. -/
structure WatchedShow where
  title : String
  seasons : List (Option Nat × List (Option Nat × Option Nat))
deriving DecidableEq, Repr

/-- The duplicate-detection caches owned by a `TraktIO` instance, plus the
backfill flag `_tmdb_history_hydrated` and two ghost counters. -/
structure TraktCache where
  watchedEpisodes : List EpKey
  watchedMovies : List Nat
  episodeTmdbIds : List Nat
  historyHydrated : Bool
  epHydrateCalls : Nat
  epHydrateRuns : Nat
deriving DecidableEq, Repr

/-- The caches of a freshly constructed `TraktIO` instance. -/
def initialCache : TraktCache :=
  { watchedEpisodes := [], watchedMovies := [], episodeTmdbIds := []
    historyHydrated := false, epHydrateCalls := 0, epHydrateRuns := 0 }

/-- Take the items processed before an injected fault (`none`: no fault). -/
def takeUntilFault (items : List α) (fault : Option Nat) : List α :=
  match fault with
  | none => items
  | some k => items.take k

/-- `TraktIO.hydrate_tmdb_ids_from_history`: skip entirely when the
`_tmdb_history_hydrated` flag is set; otherwise add every TMDB id found in the
(flattened) history pages that is not already cached, and — success or
exception alike (the `finally` block) — set the flag.  `items` are the
extracted per-history-item episode TMDB ids; `fault` injects an exception
after a prefix of the items. -/
def hydrateEpisodeIds (c : TraktCache) (items : List (Option Nat)) (fault : Option Nat) :
    TraktCache :=
  let c := { c with epHydrateCalls := c.epHydrateCalls + 1 }
  if c.historyHydrated then c
  else
    { c with
      episodeTmdbIds := insertAllNew c.episodeTmdbIds ((takeUntilFault items fault).filterMap id)
      historyHydrated := true
      epHydrateRuns := c.epHydrateRuns + 1 }

/-- `TraktIO.hydrate_movie_ids_from_history`: no guard flag; add every movie
TMDB id found in the history pages that is not already cached. -/
def hydrateMovieIds (c : TraktCache) (items : List (Option Nat)) (fault : Option Nat) :
    TraktCache :=
  { c with
    watchedMovies := insertAllNew c.watchedMovies ((takeUntilFault items fault).filterMap id) }

/-- One episode of the show-processing loop of `cacheWatchedHistory`: skip
when the episode number is unknown; otherwise add every alias key to the
episode key-set, add the extracted TMDB id (when present) to the identifier
set and count the episode towards `total_watched_episodes`. -/
def epStep (title : String) (sn : Nat) (acc : TraktCache × Nat) (ep : Option Nat × Option Nat) :
    TraktCache × Nat :=
  match ep.1 with
  | none => acc
  | some en =>
    let c := acc.1
    let c := { c with
      watchedEpisodes := insertAllNew c.watchedEpisodes (generateEpisodeKeys title sn en) }
    let c :=
      match ep.2 with
      | some t => { c with episodeTmdbIds := insertNew c.episodeTmdbIds t }
      | none => c
    (c, acc.2 + 1)

/-- One season of the show-processing loop: skip when the season number is
unknown, otherwise process its episodes. -/
def seasonStep (title : String) (acc : TraktCache × Nat)
    (seas : Option Nat × List (Option Nat × Option Nat)) : TraktCache × Nat :=
  match seas.1 with
  | none => acc
  | some sn => seas.2.foldl (epStep title sn) acc

/-- One watched-show entry of the show-processing loop. -/
def showStep (acc : TraktCache × Nat) (sh : WatchedShow) : TraktCache × Nat :=
  sh.seasons.foldl (seasonStep sh.title) acc

/-- The show-processing loop of `cacheWatchedHistory`: for every episode with
a known season and episode number, add all alias keys to the episode key-set
and the extracted TMDB id (when present) to the identifier set.  Returns the
updated cache and `total_watched_episodes`. -/
def processShows (c : TraktCache) (shows : List WatchedShow) : TraktCache × Nat :=
  shows.foldl showStep (c, 0)

/-- The TMDB-coverage check of `cacheWatchedHistory`: when watched episodes
were observed and `len(ids) / max(1, total) < 0.6`, hydrate from history.
The float comparison against the 0.6 threshold is embedded as the exact
rational comparison `5 * len < 3 * max 1 total`. -/
def coverageStep (c : TraktCache) (total : Nat) (epHist : List (Option Nat))
    (epHistFault : Option Nat) : TraktCache :=
  if 0 < total ∧ 5 * c.episodeTmdbIds.length < 3 * Nat.max 1 total then
    hydrateEpisodeIds c epHist epHistFault
  else c

/-- The code after the `try`/`except` of `cacheWatchedHistory` (lines
436-445): unconditional hydration fallbacks when the episode identifier set
or the movie identifier set is empty. -/
def afterTryFallbacks (c : TraktCache) (epHist : List (Option Nat)) (epHistFault : Option Nat)
    (movHist : List (Option Nat)) (movHistFault : Option Nat) : TraktCache :=
  let c := if c.episodeTmdbIds.isEmpty then hydrateEpisodeIds c epHist epHistFault else c
  if c.watchedMovies.isEmpty then hydrateMovieIds c movHist movHistFault else c

/-- `TraktIO.cacheWatchedHistory`.  `buildFault = some k` injects an exception
into the `try` block: for `k ≤ shows.length` the exception interrupts the
watched-shows loop after `k` show entries (so the coverage step is never
reached); for `k > shows.length` the shows section completes — including the
coverage-driven hydration — and the exception strikes while the movie
snapshot is processed.  The `except` handler clears `_watched_episodes` and
`_watched_movies` (and only those two sets).  In every case the trailing
fallback hydrations run, exactly as in the source. -/
def cacheWatchedHistory (c0 : TraktCache) (shows : List WatchedShow)
    (movies : List (Option Nat)) (buildFault : Option Nat)
    (epHist : List (Option Nat)) (epHistFault : Option Nat)
    (movHist : List (Option Nat)) (movHistFault : Option Nat) : TraktCache :=
  let c := { c0 with watchedEpisodes := [], watchedMovies := [] }
  let c :=
    match buildFault with
    | some k =>
      if k ≤ shows.length then
        let p := processShows c (shows.take k)
        { p.1 with watchedEpisodes := [], watchedMovies := [] }
      else
        let p := processShows c shows
        let c := coverageStep p.1 p.2 epHist epHistFault
        { c with watchedEpisodes := [], watchedMovies := [] }
    | none =>
      let p := processShows c shows
      let c := coverageStep p.1 p.2 epHist epHistFault
      { c with watchedMovies := insertAllNew c.watchedMovies (movies.filterMap id) }
  afterTryFallbacks c epHist epHistFault movHist movHistFault

/-! ## TraktIO: batch slicing and the inter-batch rate-limit trace -/

/-- The batch slicing of `_sync_episodes_in_batches`:
`for i in range(0, total, page_size): batch = items[i : i + page_size]`. -/
def chunksList (p : Nat) (l : List α) : List (List α) :=
  if _hp : p = 0 then []
  else
    match l with
    | [] => []
    | x :: xs => List.take p (x :: xs) :: chunksList p (List.drop p (x :: xs))
termination_by l.length
decreasing_by
  simp only [List.length_drop, List.length_cons]
  omega

/-- The batch sizes produced by slicing a list of length `n` with page size
`p`. -/
def batchSizes (n p : Nat) : List Nat :=
  if _hp : p = 0 then []
  else if _hn : n = 0 then []
  else Nat.min p n :: batchSizes (n - p) p
termination_by n
decreasing_by omega

/-- One observable event of the episode batch loop: a `_enforce_rate_limit`
call, or the submission of a batch of the given size. -/
inductive SyncEv where
  | rateLimit : SyncEv
  | submit : Nat → SyncEv
deriving DecidableEq, Repr

/-- The event trace of `_sync_episodes_in_batches`: for every batch, first the
rate-limit enforcement, then the submission; nothing after the last batch. -/
def syncEpisodesTrace (p : Nat) (l : List α) : List SyncEv :=
  (chunksList p l).flatMap (fun b => [SyncEv.rateLimit, SyncEv.submit b.length])

/-! ## TraktIO: per-batch retry (`_sync_batch_with_retry`) and the episode
batch loop, as driven by the tenacity decorator

`stop_after_attempt(5)` bounds the attempts per batch; the retry predicate
`retry_if_exception_type((HTTPError, Exception))` retries every exception —
including the escalation exception raised once
`_consecutive_auth_failures >= _max_auth_failures`.  Sleeps are timing and are
not modelled.  The attempt oracle maps the global API-call index to the
outcome of that `Trakt["sync/history"].add` call; an auth-class outcome covers
both the "no response" path and the token-refresh failure messages, which the
code treats identically. -/

/-- Outcome of one `sync/history.add` API call. -/
inductive Attempt where
  | success : Nat → Attempt
  | authErr : Attempt
  | rateErr : Attempt
  | serverErr : Attempt
  | otherErr : Attempt
deriving DecidableEq, Repr

/-- Sync-engine state: the consecutive-auth-failure counter, whether the
remediation message (delete `traktAuth.json`, re-authenticate) has been
printed, the failed-item count, the added total, and two ghost counters for
batches submitted and API attempts made. -/
structure SyncSt where
  authFails : Nat
  remediationShown : Bool
  failedCount : Nat
  addedTotal : Nat
  submittedBatches : Nat
  attemptsMade : Nat
deriving DecidableEq, Repr

/-- Initial sync-engine state. -/
def initSync : SyncSt :=
  { authFails := 0, remediationShown := false, failedCount := 0, addedTotal := 0
    submittedBatches := 0, attemptsMade := 0 }

/-- `_sync_batch_with_retry` under the tenacity decorator, with `fuel`
remaining attempts (5 at entry).  On an auth-class error the counter is
incremented and, at the threshold, the remediation messages are printed and
the escalation exception raised — which tenacity retries like any other
exception.  Returns `none` when all attempts are exhausted (`RetryError`). -/
def syncBatchRetry (oracle : Nat → Attempt) : Nat → SyncSt → SyncSt × Option Nat
  | 0, s => (s, none)
  | fuel + 1, s =>
    let a := oracle s.attemptsMade
    let s := { s with attemptsMade := s.attemptsMade + 1 }
    match a with
    | .success added => (s, some added)
    | .authErr =>
      let s := { s with authFails := s.authFails + 1 }
      let s := if 3 ≤ s.authFails then { s with remediationShown := true } else s
      syncBatchRetry oracle fuel s
    | _ => syncBatchRetry oracle fuel s

/-- The episode batch loop of `_sync_episodes_in_batches` restricted to its
control flow: each batch is submitted through the retry wrapper; a response
resets the consecutive-failure counters; any exception (the escalation
included) is caught by the per-batch handler, which records every item of the
batch as failed and lets the loop continue with the next batch. -/
def syncEpisodesBatches (oracle : Nat → Attempt) (batches : List Nat) (s : SyncSt) : SyncSt :=
  batches.foldl
    (fun s bsize =>
      let s := { s with submittedBatches := s.submittedBatches + 1 }
      let r := syncBatchRetry oracle 5 s
      match r.2 with
      | some added => { r.1 with addedTotal := r.1.addedTotal + added, authFails := 0 }
      | none => { r.1 with failedCount := r.1.failedCount + bsize })
    s

/-! ## NetflixTvShow: the history model

`watchedAt` is a Python `set` of formatted timestamp strings, embedded as a
duplicate-free list.  The two `strptime` attempts of `addWatchedDate` (the
configurable `config.CSV_DATETIME_FORMAT` first, the dotted `%m.%d.%y`
fallback second) together with the final `strftime` are modelled by an
explicit `parse` parameter returning the formatted timestamp on success. -/

/-- `NetflixTvShowEpisode`. -/
structure NfEpisode where
  name : String
  tmdbId : Option Nat
  number : Option Nat
  watchedAt : List String
deriving DecidableEq, Repr

/-- `NetflixTvShowSeason`. -/
structure NfSeason where
  number : Nat
  sname : Option String
  episodes : List NfEpisode
deriving DecidableEq, Repr

/-- `NetflixTvShow`. -/
structure NfShow where
  name : String
  seasons : List NfSeason
deriving DecidableEq, Repr

/-- `NetflixMovie`. -/
structure NfMovie where
  name : String
  tmdbId : Option Nat
  watchedAt : List String
deriving DecidableEq, Repr

/-- An entry of `NetflixTvHistory.ambiguous_entries`: the raw title, the
extracted show-name and episode-title fragments, and the raw date. -/
structure PendingRecord where
  title : String
  showName : String
  episodeTitle : String
  date : String
deriving DecidableEq, Repr

/-- `NetflixTvHistory.classification_stats`.  `moviesCertain` is declared by
the source but never incremented. -/
structure ClassStats where
  episodesCertain : Nat
  episodesInferred : Nat
  moviesCertain : Nat
  ambiguousResolved : Nat
deriving DecidableEq, Repr

/-- `NetflixTvHistory`. -/
structure NfHistory where
  shows : List NfShow
  movies : List NfMovie
  knownShowNames : List String
  ambiguousEntries : List PendingRecord
  stats : ClassStats
deriving DecidableEq, Repr

/-- A fresh `NetflixTvHistory()`. -/
def emptyHistory : NfHistory :=
  { shows := [], movies := [], knownShowNames := []
    ambiguousEntries := [], stats := ⟨0, 0, 0, 0⟩ }

/-- `NetflixWatchableItem.addWatchedDate`: on parse success the formatted
timestamp is added to the `watchedAt` set and `True` is returned; on failure
of both formats the set is unchanged and `False` is returned. -/
def addWatchedDate (parse : String → Option String) (watched : List String) (d : String) :
    List String × Bool :=
  match parse d with
  | some ts => (insertNew watched ts, true)
  | none => (watched, false)

/-- Apply `f` to the first element satisfying `p`; `none` when no element
does.  This captures the find-then-mutate-in-place idiom of the Python
`get…By…` helpers followed by attribute mutation. -/
def mapFirst (p : α → Bool) (f : α → α) : List α → Option (List α)
  | [] => none
  | x :: xs =>
    if p x then some (f x :: xs)
    else (mapFirst p f xs).map (fun l => x :: l)

/-- `NetflixTvHistory.getTvShow` (first show with the given name). -/
def getShow (h : NfHistory) (name : String) : Option NfShow :=
  h.shows.find? (fun s => s.name == name)

/-- `NetflixTvHistory.getMovie` (first movie with the given name). -/
def getMovie (h : NfHistory) (name : String) : Option NfMovie :=
  h.movies.find? (fun m => m.name == name)

/-- `NetflixTvHistory.addTvShow` followed by a mutation of the returned show:
the first show with the given name is updated, and when none exists a fresh
`NetflixTvShow(name)` is appended (and updated). -/
def withShow (shows : List NfShow) (name : String) (f : NfShow → NfShow) : List NfShow :=
  match shows with
  | [] => [f { name := name, seasons := [] }]
  | s :: rest => if s.name == name then f s :: rest else s :: withShow rest name f

/-- `NetflixTvShow.addSeason` followed by a mutation of the returned season:
a `None` season number defaults to 1; lookup is by number first, by name
second (a `None` season name never matches), and a fresh season is appended
when neither lookup succeeds. -/
def withSeason (sh : NfShow) (seasonNumber : Option Nat) (seasonName : Option String)
    (f : NfSeason → NfSeason) : NfShow :=
  let eff := seasonNumber.getD 1
  match mapFirst (fun se => se.number == eff) f sh.seasons with
  | some l => { sh with seasons := l }
  | none =>
    match seasonName with
    | some nm =>
      match mapFirst (fun se => se.sname == some nm) f sh.seasons with
      | some l => { sh with seasons := l }
      | none => { sh with seasons := sh.seasons ++ [f { number := eff, sname := some nm, episodes := [] }] }
    | none => { sh with seasons := sh.seasons ++ [f { number := eff, sname := none, episodes := [] }] }

/-- `NetflixTvShowSeason.addEpisode` followed by a mutation of the returned
episode: the first episode with the given name is updated, and a fresh
episode is appended when none exists. -/
def withEpisode (se : NfSeason) (epName : String) (f : NfEpisode → NfEpisode) : NfSeason :=
  match mapFirst (fun ep => ep.name == epName) f se.episodes with
  | some l => { se with episodes := l }
  | none =>
    { se with
      episodes := se.episodes ++ [f { name := epName, tmdbId := none, number := none, watchedAt := [] }] }

/-- The date validation shared by `addTvShowEntry` and `addMovieEntry`: the
record is skipped when the date is empty, equals a header token
(`date`/`datum`, case-insensitively), or contains no digit. -/
def dateInvalid (d : String) : Bool :=
  d == "" || lowerStr d == "date" || lowerStr d == "datum" || !(d.data.any Char.isDigit)

/-- `NetflixTvHistory.addTvShowEntry`: validate the date, then ensure
show/season/episode exist (lookup-or-create at each level), add the watched
date to the episode, register the show name as confirmed, and update the
classification statistics. -/
def addTvShowEntry (parse : String → Option String) (h : NfHistory) (showName : String)
    (seasonNumber : Option Nat) (episodeTitle : String) (watchedDate : String)
    (seasonName : Option String) : NfHistory :=
  if dateInvalid watchedDate then h
  else
    let shows := withShow h.shows showName (fun sh =>
      withSeason sh seasonNumber seasonName (fun se =>
        withEpisode se episodeTitle (fun ep =>
          { ep with watchedAt := (addWatchedDate parse ep.watchedAt watchedDate).1 })))
    let st := h.stats
    let st :=
      if seasonNumber.isSome || seasonName.isSome then
        { st with episodesCertain := st.episodesCertain + 1 }
      else { st with episodesInferred := st.episodesInferred + 1 }
    { h with
      shows := shows
      knownShowNames := insertNew h.knownShowNames showName
      stats := st }

/-- `NetflixTvHistory.addMovieEntry`: validate the date; for a known movie
add the watched date (returning the movie even when parsing fails); for a new
movie, append it, and when the date fails both parse formats pop it again and
return `None`. -/
def addMovieEntry (parse : String → Option String) (h : NfHistory) (movieTitle : String)
    (watchedDate : String) : NfHistory × Option NfMovie :=
  if dateInvalid watchedDate then (h, none)
  else
    match getMovie h movieTitle with
    | some m =>
      let m2 := { m with watchedAt := (addWatchedDate parse m.watchedAt watchedDate).1 }
      match mapFirst (fun x => x.name == movieTitle) (fun _ => m2) h.movies with
      | some l => ({ h with movies := l }, some m2)
      | none => (h, some m2)
    | none =>
      let m := { name := movieTitle, tmdbId := none, watchedAt := [] : NfMovie }
      let r := addWatchedDate parse m.watchedAt watchedDate
      if r.2 then
        let m2 := { m with watchedAt := r.1 }
        ({ h with movies := h.movies ++ [m2] }, some m2)
      else
        -- the transiently appended movie is popped again: the list is restored
        (h, none)

/-! ## NetflixTvShow: the regex cascade of `addEntry`

Each Python regex is embedded as an explicit matcher over the title's
characters, reproducing `re.search` semantics on single-line input: the match
starts at position 0 (a leading greedy `(.+)` absorbs any shorter start), the
leftmost group backtracks from the longest split, `\d{1,2}` prefers two
digits, and a trailing `(.*)` takes the rest of the string. -/

/-- Digit value of a character, `none` for non-digits. -/
def digitVal (c : Char) : Option Nat :=
  if c.isDigit then some (c.toNat - '0'.toNat) else none

/-- Parse `(\d{1,2}): ` greedily at the front of `l` (as in pattern 1),
returning the season number and the remaining characters (group 3, `(.*)`). -/
def parseSeasonColon (l : List Char) : Option (Nat × List Char) :=
  match l with
  | c1 :: c2 :: rest2 =>
    match digitVal c1 with
    | none => none
    | some a =>
      match digitVal c2 with
      | some b =>
        match rest2 with
        | ':' :: ' ' :: rest => some (10 * a + b, rest)
        | _ => none
      | none =>
        match c2, rest2 with
        | ':', ' ' :: rest => some (a, rest)
        | _, _ => none
  | _ => none

/-- Parse `(\d{1,2}) – ` greedily at the front of `l` (as in pattern 2),
returning the season number and the characters after the en-dash. -/
def parseSeasonDash (l : List Char) : Option (Nat × List Char) :=
  match l with
  | c1 :: c2 :: rest2 =>
    match digitVal c1 with
    | none => none
    | some a =>
      match digitVal c2 with
      | some b =>
        match rest2 with
        | ' ' :: '–' :: ' ' :: rest => some (10 * a + b, rest)
        | _ => none
      | none =>
        match c2, rest2 with
        | ' ', '–' :: ' ' :: rest => some (a, rest)
        | _, _ => none
  | _ => none

/-- Pattern 1, `r"(.+): .+ (\d{1,2}): (.*)"`: show name, season number,
episode title.  Group 1 backtracks from the longest split, then the middle
`.+ ` from the longest, then the 1-2 digit season number greedily. -/
def matchSeasonNum (s : List Char) : Option (String × Nat × String) :=
  (List.range s.length).reverse.findSome? (fun i =>
    if 0 < i && leadMatch [':', ' '] (s.drop i) then
      let r := s.drop (i + 2)
      (List.range r.length).reverse.findSome? (fun j =>
        if 0 < j && leadMatch [' '] (r.drop j) then
          match parseSeasonColon (r.drop (j + 1)) with
          | some (n, rest) => some (String.mk (s.take i), n, String.mk rest)
          | none => none
        else none)
    else none)

/-- Pattern 2, `r"(.+): .+ (\d{1,2}) – .+: (.*)"` (en-dash season/part
separator): show name, season number, episode title. -/
def matchSeasonPart (s : List Char) : Option (String × Nat × String) :=
  (List.range s.length).reverse.findSome? (fun i =>
    if 0 < i && leadMatch [':', ' '] (s.drop i) then
      let r := s.drop (i + 2)
      (List.range r.length).reverse.findSome? (fun j =>
        if 0 < j && leadMatch [' '] (r.drop j) then
          match parseSeasonDash (r.drop (j + 1)) with
          | some (n, rest) =>
            (List.range rest.length).reverse.findSome? (fun k =>
              if 0 < k && leadMatch [':', ' '] (rest.drop k) then
                some (String.mk (s.take i), n, String.mk (rest.drop (k + 2)))
              else none)
          | none => none
        else none)
    else none)

/-- A character of the regex class `\w` (the titles handled are ASCII). -/
def wordChar (c : Char) : Bool := c.isAlphanum || c == '_'

/-- Pattern 3, `r"(.+): \w+: (.+)"` (single-word middle segment, e.g. a
miniseries marker): show name and episode title. -/
def matchMini (s : List Char) : Option (String × String) :=
  (List.range s.length).reverse.findSome? (fun i =>
    if 0 < i && leadMatch [':', ' '] (s.drop i) then
      let r := s.drop (i + 2)
      let w := r.takeWhile wordChar
      if w.length != 0 && leadMatch [':', ' '] (r.drop w.length)
          && (r.drop (w.length + 2)).length != 0 then
        some (String.mk (s.take i), String.mk (r.drop (w.length + 2)))
      else none
    else none)

/-- Pattern 4, `r"(.+): (.+): (.+)"`: show name, season name, episode
title. -/
def matchThree (s : List Char) : Option (String × String × String) :=
  (List.range s.length).reverse.findSome? (fun i =>
    if 0 < i && leadMatch [':', ' '] (s.drop i) then
      let r := s.drop (i + 2)
      (List.range r.length).reverse.findSome? (fun j =>
        if 0 < j && leadMatch [':', ' '] (r.drop j) && (r.drop (j + 2)).length != 0 then
          some (String.mk (s.take i), String.mk (r.take j), String.mk (r.drop (j + 2)))
        else none)
    else none)

/-- Pattern 5, `r"(.+): (.+)"`: show name (greedy, so split at the last
`": "`) and episode title. -/
def matchTwo (s : List Char) : Option (String × String) :=
  (List.range s.length).reverse.findSome? (fun i =>
    if 0 < i && leadMatch [':', ' '] (s.drop i) && (s.drop (i + 2)).length != 0 then
      some (String.mk (s.take i), String.mk (s.drop (i + 2)))
    else none)

/-! ## NetflixTvShow: the classification heuristic and `addEntry` -/

/-- Search for `word` followed by one or more digits (the patterns
`Episode \d+`, `Part \d+`, `Chapter \d+`, `Act \d+`); `word` ends in the
literal space, the caller lowercases. -/
def hasTokNum (s : List Char) (word : String) : Bool :=
  (List.range (s.length + 1)).any (fun i =>
    leadMatch word.data (s.drop i) &&
      (match (s.drop (i + word.length)) with
       | c :: _ => c.isDigit
       | [] => false))

/-- Search for `w1` followed (after `minGap` or more characters) by `w2`,
embedding the patterns `The .+ Movie` (gap at least 1) and `Director.*Cut`
(gap at least 0). -/
def hasGap (s : List Char) (w1 w2 : String) (minGap : Nat) : Bool :=
  (List.range (s.length + 1)).any (fun i =>
    leadMatch w1.data (s.drop i) &&
      (List.range (s.length + 1)).any (fun k =>
        decide (i + w1.length + minGap ≤ k) && leadMatch w2.data (s.drop k)))

/-- The episode-indicator patterns of `isLikelyTvShow` (case-insensitive
search on the episode title). -/
def episodeIndicator (t : String) : Bool :=
  let l := (lowerStr t).data
  hasTokNum l "episode " || hasTokNum l "part " || hasTokNum l "chapter " || hasTokNum l "act " ||
    hasSub l "season finale".data || hasSub l "pilot".data || hasSub l "finale".data ||
    hasSub l "premiere".data

/-- The movie-indicator patterns of `isLikelyTvShow` (case-insensitive search
on the full `"show: episode"` title). -/
def movieIndicator (t : String) : Bool :=
  let l := (lowerStr t).data
  hasSub l "legend of".data || hasSub l "rise of".data || hasSub l "return of".data ||
    hasSub l "age of".data || hasGap l "the " " movie" 1 || hasGap l "director" "cut" 0 ||
    hasSub l "extended edition".data || hasSub l "special edition".data ||
    hasSub l "uncut".data || hasSub l "remastered".data

/-- `NetflixTvHistory.isLikelyTvShow`: `some true` for a confident episode,
`some false` for a confident movie, `none` when uncertain. -/
def isLikelyTvShow (known : List String) (showName episodeTitle : String) : Option Bool :=
  if showName ∈ known then some true
  else if episodeIndicator episodeTitle then some true
  else if movieIndicator (showName ++ ": " ++ episodeTitle) then some false
  else none

/-- `NetflixTvHistory.addEntry`: the ordered pattern cascade, first match
wins; pattern 5 goes through the classification heuristic with a deferred
(pending) path for uncertain records; everything else is a movie.  Returns
the updated history and the Boolean result of `addEntry`. -/
def addEntry (parse : String → Option String) (h : NfHistory) (entryTitle entryDate : String) :
    NfHistory × Bool :=
  match matchSeasonNum entryTitle.data with
  | some (a, n, b) => (addTvShowEntry parse h a (some n) b entryDate none, true)
  | none =>
  match matchSeasonPart entryTitle.data with
  | some (a, n, b) => (addTvShowEntry parse h a (some n) b entryDate none, true)
  | none =>
  match matchMini entryTitle.data with
  | some (a, b) => (addTvShowEntry parse h a (some 1) b entryDate none, true)
  | none =>
  match matchThree entryTitle.data with
  | some (a, sn, b) => (addTvShowEntry parse h a none b entryDate (some sn), true)
  | none =>
  match matchTwo entryTitle.data with
  | some (a, b) =>
    match isLikelyTvShow h.knownShowNames a b with
    | some true => (addTvShowEntry parse h a (some 1) b entryDate none, true)
    | some false => ((addMovieEntry parse h entryTitle entryDate).1, true)
    | none =>
      ({ h with
          ambiguousEntries := h.ambiguousEntries ++
            [{ title := entryTitle, showName := a, episodeTitle := b, date := entryDate }] },
        true)
  | none => ((addMovieEntry parse h entryTitle entryDate).1, true)

/-- `NetflixTvHistory.resolveAmbiguousEntries`: group the pending records by
show name (frequencies computed over the pre-loop list), then resolve each
record in order — as an episode when its show name is by now confirmed or at
least two pending records share it, as a movie (under the original
untruncated title) otherwise — and clear the pending list. -/
def resolveAmbiguousEntries (parse : String → Option String) (h : NfHistory) : NfHistory :=
  let pend := h.ambiguousEntries
  let freq := fun (name : String) => pend.countP (fun e => e.showName == name)
  let h2 := pend.foldl
    (fun acc e =>
      if e.showName ∈ acc.knownShowNames then
        let acc := addTvShowEntry parse acc e.showName (some 1) e.episodeTitle e.date none
        { acc with stats := { acc.stats with ambiguousResolved := acc.stats.ambiguousResolved + 1 } }
      else if 2 ≤ freq e.showName then
        let acc := addTvShowEntry parse acc e.showName (some 1) e.episodeTitle e.date none
        { acc with stats := { acc.stats with ambiguousResolved := acc.stats.ambiguousResolved + 1 } }
      else
        (addMovieEntry parse acc e.title e.date).1)
    h
  { h2 with ambiguousEntries := [] }

/-- A concrete instance of the spec-configurable CSV date handling.
Modelled from the spec: `config.py` (which fixes `CSV_DATETIME_FORMAT`) is
not among the sources; the spec makes the format configurable and its
end-to-end example uses ISO `YYYY-MM-DD` dates, so this instance accepts
exactly those and renders them the way `addWatchedDate` does
(`strftime("%Y-%m-%dT%H:%M:%S.00Z")` with the fixed 20:15 time). -/
def demoParse (d : String) : Option String :=
  let cs := d.data
  if cs.length == 10 && (List.range 10).all (fun i =>
      if i == 4 || i == 7 then (cs.drop i).take 1 == ['-']
      else (cs.drop i).take 1 |>.all Char.isDigit) then
    some (d ++ "T20:15:00.00Z")
  else none

/-! ## Theorems -/

theorem mem_insertNew [DecidableEq α] (l : List α) (a : α) : a ∈ insertNew l a := by
  unfold insertNew
  split
  · assumption
  · exact List.mem_append_right l (List.mem_singleton.mpr rfl)

theorem insertNew_of_mem [DecidableEq α] {l : List α} {a : α} (h : a ∈ l) :
    insertNew l a = l := by
  unfold insertNew
  exact if_pos h

/-- C3 counterexample.  The claim states that `isEpisodeWatched` returns
false whenever the episode-number argument is `None`, regardless of the
cache contents.  In the code the TMDB-identifier check runs before the
episode-number guard, so a query with episode number `None` but a cached
catalog identifier returns true, refuting the claim at this input. -/
theorem isEpisodeWatched_none_episode_cex :
    isEpisodeWatched [] [7] "show" 1 none (some 7) = true := by decide

/-- C3 (amended).  `isEpisodeWatched` returns true whenever the supplied
catalog identifier is in the identifier set — for every cache state, even if
no alias key matches; and it returns false whenever the episode number is
`None` and the catalog-identifier check did not already succeed (identifier
absent or not supplied). -/
theorem isEpisodeWatched_query_contract :
    (∀ (epKeys : List EpKey) (tmdbIds : List Nat) (showName : String) (seasonNumber : Nat)
        (episodeNumber : Option Nat) (t : Nat), t ∈ tmdbIds →
        isEpisodeWatched epKeys tmdbIds showName seasonNumber episodeNumber (some t) = true)
    ∧ (∀ (epKeys : List EpKey) (tmdbIds : List Nat) (showName : String) (seasonNumber : Nat)
        (tmdbId : Option Nat), (∀ t, tmdbId = some t → t ∉ tmdbIds) →
        isEpisodeWatched epKeys tmdbIds showName seasonNumber none tmdbId = false) := by
  constructor
  · intro epKeys tmdbIds showName seasonNumber episodeNumber t ht
    simp [isEpisodeWatched, ht]
  · intro epKeys tmdbIds showName seasonNumber tmdbId h
    match tmdbId with
    | none => simp [isEpisodeWatched, aliasQuery]
    | some t =>
      have ht : t ∉ tmdbIds := h t rfl
      simp [isEpisodeWatched, ht, aliasQuery]

/-- Witness for C3 (amended) at concrete inputs: catalog id 7 is cached, so
the query answers true with an empty alias key-set; catalog id 9 is not
cached, so the episode-number-`None` query answers false. -/
theorem isEpisodeWatched_query_contract_witness :
    ((7 ∈ [7]) ∧ isEpisodeWatched [] [7] "show" 1 (some 2) (some 7) = true)
    ∧ ((∀ t, (some 9 : Option Nat) = some t → t ∉ [7])
        ∧ isEpisodeWatched [] [7] "show" 1 none (some 9) = false) := by
  refine ⟨⟨by decide, isEpisodeWatched_query_contract.1 [] [7] "show" 1 (some 2) 7 (by decide)⟩,
    ⟨?_, isEpisodeWatched_query_contract.2 [] [7] "show" 1 (some 9) ?_⟩⟩
  all_goals
    intro t ht
    have h9 : t = 9 := (Option.some.inj ht).symm
    subst h9
    decide

/-- C8.  Watch-timestamp insertion has set semantics: inserting the same date
a second time leaves the watched set unchanged, and a date new to the set is
stored exactly once. -/
theorem addWatchedDate_idempotent (parse : String → Option String) (w : List String)
    (d ts : String) (hp : parse d = some ts) (hw : ts ∉ w) :
    (addWatchedDate parse (addWatchedDate parse w d).1 d).1 = (addWatchedDate parse w d).1
    ∧ List.count ts (addWatchedDate parse w d).1 = 1 := by
  constructor
  · simp only [addWatchedDate, hp]
    exact insertNew_of_mem (mem_insertNew w ts)
  · simp only [addWatchedDate, hp, insertNew, if_neg hw]
    rw [List.count_append]
    simp [List.count_eq_zero.mpr hw]

/-- Witness for C8 at a concrete item and date. -/
theorem addWatchedDate_idempotent_witness :
    ((fun s => some (s ++ "T20:15:00.00Z")) "2023-01-01" = some "2023-01-01T20:15:00.00Z")
    ∧ ("2023-01-01T20:15:00.00Z" ∉ ([] : List String))
    ∧ ((addWatchedDate (fun s => some (s ++ "T20:15:00.00Z"))
          (addWatchedDate (fun s => some (s ++ "T20:15:00.00Z")) [] "2023-01-01").1
          "2023-01-01").1
        = (addWatchedDate (fun s => some (s ++ "T20:15:00.00Z")) [] "2023-01-01").1
      ∧ List.count "2023-01-01T20:15:00.00Z"
          (addWatchedDate (fun s => some (s ++ "T20:15:00.00Z")) [] "2023-01-01").1 = 1) :=
  ⟨by decide, by decide,
    addWatchedDate_idempotent (fun s => some (s ++ "T20:15:00.00Z")) [] "2023-01-01"
      "2023-01-01T20:15:00.00Z" (by decide) (by decide)⟩

/-- C9.  `addMovieEntry` is atomic on date-parse failure: for a movie title
not yet in the history, when the date passes the header/digit validation but
fails both parse formats, the call returns `None` and the history — in
particular the movies collection — is unchanged, leaving no movie with an
empty watch-timestamp set behind. -/
theorem addMovieEntry_atomic_on_parse_failure (parse : String → Option String)
    (h : NfHistory) (title d : String) (hm : getMovie h title = none)
    (hd : dateInvalid d = false) (hp : parse d = none) :
    addMovieEntry parse h title d = (h, none) := by
  simp [addMovieEntry, hd, hm, addWatchedDate, hp]

/-- Witness for C9: a digit-containing non-header date that no parse format
accepts, for a movie absent from the (empty) history. -/
theorem addMovieEntry_atomic_on_parse_failure_witness :
    (getMovie emptyHistory "Some Film" = none)
    ∧ (dateInvalid "9x" = false)
    ∧ ((fun (_ : String) => (none : Option String)) "9x" = none)
    ∧ addMovieEntry (fun _ => none) emptyHistory "Some Film" "9x" = (emptyHistory, none) :=
  ⟨by decide, by decide, rfl,
    addMovieEntry_atomic_on_parse_failure (fun _ => none) emptyHistory "Some Film" "9x"
      (by decide) (by decide) rfl⟩

/-- C10.  `addEntry` returns `True` on every input pair — every branch of the
pattern cascade, the rejected-date paths included, ends in `return True`, so
the Boolean result never distinguishes records that populated the history
from records that were dropped or deferred. -/
theorem addEntry_always_true (parse : String → Option String) (h : NfHistory)
    (entryTitle entryDate : String) : (addEntry parse h entryTitle entryDate).2 = true := by
  unfold addEntry
  repeat' split
  all_goals rfl

theorem chunksList_nil (p : Nat) : chunksList p ([] : List α) = [] := by
  unfold chunksList
  split
  · rfl
  · rfl

theorem chunksList_map_length (p : Nat) :
    ∀ (fuel : Nat) (l : List α), l.length ≤ fuel →
      (chunksList p l).map List.length = batchSizes l.length p := by
  intro fuel
  induction fuel with
  | zero =>
    intro l hl
    have h0 : l = [] := List.eq_nil_of_length_eq_zero (Nat.le_zero.mp hl)
    subst h0
    simp [chunksList_nil, batchSizes]
  | succ m ih =>
    intro l hl
    by_cases hp : p = 0
    · subst hp
      unfold chunksList batchSizes
      simp
    · match l with
      | [] => simp [chunksList_nil, batchSizes]
      | x :: xs =>
        rw [chunksList, batchSizes]
        simp only [dif_neg hp, List.length_cons]
        rw [dif_neg (by omega : ¬xs.length + 1 = 0)]
        simp only [List.map_cons, List.length_take, List.length_cons]
        have hlen : (List.drop p (x :: xs)).length ≤ m := by
          simp only [List.length_drop, List.length_cons]
          simp only [List.length_cons] at hl
          omega
        rw [ih (List.drop p (x :: xs)) hlen]
        simp only [List.length_drop, List.length_cons]

theorem flatMap_by_length (f : Nat → List β) :
    ∀ l : List (List α), l.flatMap (fun b => f b.length) = (l.map List.length).flatMap f := by
  intro l
  induction l with
  | nil => rfl
  | cons x xs ih => simp [List.flatMap_cons, ih]

/-- C7.  For 120 pending episodes and page size 50, the episode sync submits
exactly 3 batches, of sizes 50, 50 and 20 in this order, and the
rate-limit/delay enforcement runs before each submission — hence between
every pair of consecutive batches — and never after the last batch: the
trace ends with the final submission. -/
theorem episode_batches_shape (l : List α) (hl : l.length = 120) :
    (chunksList 50 l).map List.length = [50, 50, 20]
    ∧ syncEpisodesTrace 50 l =
        [SyncEv.rateLimit, SyncEv.submit 50, SyncEv.rateLimit, SyncEv.submit 50,
         SyncEv.rateLimit, SyncEv.submit 20] := by
  have hsizes : (chunksList 50 l).map List.length = [50, 50, 20] := by
    rw [chunksList_map_length 50 l.length l (Nat.le_refl _), hl]
    rw [batchSizes]
    norm_num
    rw [batchSizes]
    norm_num
    rw [batchSizes]
    norm_num
    rw [batchSizes]
    norm_num
  refine ⟨hsizes, ?_⟩
  unfold syncEpisodesTrace
  rw [flatMap_by_length (fun n => [SyncEv.rateLimit, SyncEv.submit n]) (chunksList 50 l), hsizes]
  rfl

theorem takeUntilFault_nil (f : Option Nat) : takeUntilFault ([] : List α) f = [] := by
  cases f <;> simp [takeUntilFault]

theorem hydrateEpisodeIds_watchedEpisodes (c : TraktCache) (items : List (Option Nat))
    (f : Option Nat) : (hydrateEpisodeIds c items f).watchedEpisodes = c.watchedEpisodes := by
  simp only [hydrateEpisodeIds]
  split <;> rfl

theorem hydrateEpisodeIds_watchedMovies (c : TraktCache) (items : List (Option Nat))
    (f : Option Nat) : (hydrateEpisodeIds c items f).watchedMovies = c.watchedMovies := by
  simp only [hydrateEpisodeIds]
  split <;> rfl

theorem hydrateMovieIds_watchedEpisodes (c : TraktCache) (items : List (Option Nat))
    (f : Option Nat) : (hydrateMovieIds c items f).watchedEpisodes = c.watchedEpisodes := rfl

theorem hydrateMovieIds_nil (c : TraktCache) (f : Option Nat) :
    hydrateMovieIds c [] f = c := by
  unfold hydrateMovieIds
  rw [takeUntilFault_nil]
  rfl

theorem afterTryFallbacks_watchedEpisodes (c : TraktCache) (epHist : List (Option Nat))
    (epF : Option Nat) (movF : Option Nat) :
    (afterTryFallbacks c epHist epF [] movF).watchedEpisodes = c.watchedEpisodes := by
  simp only [afterTryFallbacks]
  have hd : ∀ d : TraktCache,
      (if d.watchedMovies.isEmpty = true then hydrateMovieIds d [] movF else d).watchedEpisodes
        = d.watchedEpisodes := by
    intro d
    split
    · rw [hydrateMovieIds_watchedEpisodes]
    · rfl
  rw [hd]
  split
  · rw [hydrateEpisodeIds_watchedEpisodes]
  · rfl

theorem afterTryFallbacks_watchedMovies_of_empty (c : TraktCache) (epHist : List (Option Nat))
    (epF : Option Nat) (movF : Option Nat) (hc : c.watchedMovies = []) :
    (afterTryFallbacks c epHist epF [] movF).watchedMovies = [] := by
  simp only [afterTryFallbacks]
  have hm : ∀ d : TraktCache, d.watchedMovies = [] →
      (if d.watchedMovies.isEmpty = true then hydrateMovieIds d [] movF else d).watchedMovies
        = [] := by
    intro d hdm
    split
    · rw [hydrateMovieIds_nil]
      exact hdm
    · exact hdm
  apply hm
  split
  · rw [hydrateEpisodeIds_watchedMovies]
    exact hc
  · exact hc

/-- C2 counterexample.  The claim states that every snapshot-build failure
leaves all three duplicate-detection caches empty, the episode
catalog-identifier set included.  Here the build raises while the movie
snapshot is still pending, after one episode with TMDB id 42 was cached: the
`except` handler clears only the alias key-set and the movie identifier set,
and the episode identifier set still holds 42 afterwards. -/
theorem cache_failure_tmdb_retained_cex :
    (cacheWatchedHistory initialCache [⟨"A", [(some 1, [(some 1, some 42)])]⟩] []
        (some 1) [] none [] none).episodeTmdbIds = [42]
    ∧ (cacheWatchedHistory initialCache [⟨"A", [(some 1, [(some 1, some 42)])]⟩] []
        (some 1) [] none [] none).episodeTmdbIds ≠ [] := by decide

/-- C2 (amended).  For every exception raised while building the
watched-history snapshot, the episode alias-key set is left empty afterwards,
and the movie identifier set, cleared by the handler, is empty whenever the
subsequent movie-history hydration fallback finds no entries; the episode
catalog-identifier set, however, is not cleared and may retain identifiers
cached before the failure. -/
theorem cache_failure_clears_alias_and_movie_sets (c0 : TraktCache)
    (shows : List WatchedShow) (movies : List (Option Nat)) (k : Nat)
    (epHist : List (Option Nat)) (epF : Option Nat) (movF : Option Nat) :
    (cacheWatchedHistory c0 shows movies (some k) epHist epF [] movF).watchedEpisodes = []
    ∧ (cacheWatchedHistory c0 shows movies (some k) epHist epF [] movF).watchedMovies = [] := by
  constructor
  · simp only [cacheWatchedHistory]
    rw [afterTryFallbacks_watchedEpisodes]
    split <;> rfl
  · simp only [cacheWatchedHistory]
    apply afterTryFallbacks_watchedMovies_of_empty
    split <;> rfl

theorem foldlGhost {β : Type} (g : TraktCache → Nat)
    (f : TraktCache × Nat → β → TraktCache × Nat)
    (hf : ∀ a b, g (f a b).1 = g a.1) :
    ∀ (l : List β) (p : TraktCache × Nat), g (l.foldl f p).1 = g p.1 := by
  intro l
  induction l with
  | nil => intro p; rfl
  | cons x xs ih =>
    intro p
    rw [List.foldl_cons, ih, hf]

theorem epStep_ghost (g : TraktCache → Nat)
    (hg : ∀ (c : TraktCache) (we : List EpKey) (ids : List Nat),
      g { c with watchedEpisodes := we, episodeTmdbIds := ids } = g c)
    (title : String) (sn : Nat) (a : TraktCache × Nat) (ep : Option Nat × Option Nat) :
    g (epStep title sn a ep).1 = g a.1 := by
  match ep with
  | (none, _) => rfl
  | (some en, none) =>
    exact hg a.1 (insertAllNew a.1.watchedEpisodes (generateEpisodeKeys title sn en))
      a.1.episodeTmdbIds
  | (some en, some t) =>
    exact hg a.1 (insertAllNew a.1.watchedEpisodes (generateEpisodeKeys title sn en))
      (insertNew a.1.episodeTmdbIds t)

theorem processShows_ghost (g : TraktCache → Nat)
    (hg : ∀ (c : TraktCache) (we : List EpKey) (ids : List Nat),
      g { c with watchedEpisodes := we, episodeTmdbIds := ids } = g c)
    (c : TraktCache) (shows : List WatchedShow) :
    g (processShows c shows).1 = g c := by
  unfold processShows
  refine foldlGhost g showStep ?_ shows (c, 0)
  intro a sh
  unfold showStep
  refine foldlGhost g (seasonStep sh.title) ?_ sh.seasons a
  intro a2 seas
  unfold seasonStep
  match seas with
  | (none, _) => rfl
  | (some sn, eps) =>
    exact foldlGhost g (epStep sh.title sn) (epStep_ghost g hg sh.title sn) eps a2

theorem hydrateEpisodeIds_calls (c : TraktCache) (items : List (Option Nat)) (f : Option Nat) :
    (hydrateEpisodeIds c items f).epHydrateCalls = c.epHydrateCalls + 1 := by
  simp only [hydrateEpisodeIds]
  split <;> rfl

theorem hydrateEpisodeIds_hydrated (c : TraktCache) (items : List (Option Nat))
    (f : Option Nat) : (hydrateEpisodeIds c items f).historyHydrated = true := by
  simp only [hydrateEpisodeIds]
  split
  · assumption
  · rfl

theorem hydrateEpisodeIds_runs_of_hydrated (c : TraktCache) (items : List (Option Nat))
    (f : Option Nat) (hc : c.historyHydrated = true) :
    (hydrateEpisodeIds c items f).epHydrateRuns = c.epHydrateRuns := by
  simp only [hydrateEpisodeIds]
  rw [if_pos hc]

theorem hydrateEpisodeIds_runs_of_fresh (c : TraktCache) (items : List (Option Nat))
    (f : Option Nat) (hc : c.historyHydrated = false) :
    (hydrateEpisodeIds c items f).epHydrateRuns = c.epHydrateRuns + 1 := by
  simp only [hydrateEpisodeIds]
  rw [if_neg (by rw [hc]; exact Bool.false_ne_true)]

theorem afterTryFallbacks_calls_ge (c : TraktCache) (epHist : List (Option Nat))
    (epF : Option Nat) (movHist : List (Option Nat)) (movF : Option Nat) :
    c.epHydrateCalls ≤ (afterTryFallbacks c epHist epF movHist movF).epHydrateCalls := by
  simp only [afterTryFallbacks]
  have hmono : ∀ d : TraktCache,
      d.epHydrateCalls ≤ (if d.watchedMovies.isEmpty = true
        then hydrateMovieIds d movHist movF else d).epHydrateCalls := by
    intro d
    split
    · exact Nat.le_refl _
    · exact Nat.le_refl _
  refine Nat.le_trans ?_ (hmono _)
  split
  · rw [hydrateEpisodeIds_calls]
    exact Nat.le_succ _
  · exact Nat.le_refl _

/-- C6.  The episode-identifier backfill runs at most once per cache
lifetime.  First conjunct (trigger): when the snapshot contains watched
episodes and the identifier coverage is below the 60% threshold
(`5·|ids| < 3·max 1 total`), `cacheWatchedHistory` invokes the backfill.
Second conjunct: every backfill call — successful, failed mid-page, or
skipped — leaves the backfilled flag set.  Third conjunct: over any sequence
of backfill invocations, at most one actually executes once the instance is
fresh, and none when the flag is already set. -/
theorem backfill_once_per_lifetime :
    (∀ (c0 : TraktCache) (shows : List WatchedShow) (movies : List (Option Nat))
        (epHist : List (Option Nat)) (epF : Option Nat) (movHist : List (Option Nat))
        (movF : Option Nat),
        0 < (processShows { c0 with watchedEpisodes := [], watchedMovies := [] } shows).2 →
        5 * (processShows { c0 with watchedEpisodes := [], watchedMovies := [] }
              shows).1.episodeTmdbIds.length
          < 3 * Nat.max 1 (processShows { c0 with watchedEpisodes := [], watchedMovies := [] }
              shows).2 →
        c0.epHydrateCalls + 1
          ≤ (cacheWatchedHistory c0 shows movies none epHist epF movHist movF).epHydrateCalls)
    ∧ (∀ (c : TraktCache) (items : List (Option Nat)) (f : Option Nat),
        (hydrateEpisodeIds c items f).historyHydrated = true)
    ∧ (∀ (calls : List (List (Option Nat) × Option Nat)) (c : TraktCache),
        (calls.foldl (fun a pr => hydrateEpisodeIds a pr.1 pr.2) c).epHydrateRuns
          ≤ c.epHydrateRuns + (if c.historyHydrated then 0 else 1)) := by
  refine ⟨?_, hydrateEpisodeIds_hydrated, ?_⟩
  · intro c0 shows movies epHist epF movHist movF h1 h2
    simp only [cacheWatchedHistory]
    refine Nat.le_trans ?_ (afterTryFallbacks_calls_ge _ _ _ _ _)
    show c0.epHydrateCalls + 1
      ≤ (coverageStep (processShows { c0 with watchedEpisodes := [], watchedMovies := [] }
          shows).1 (processShows { c0 with watchedEpisodes := [], watchedMovies := [] } shows).2
          epHist epF).epHydrateCalls
    unfold coverageStep
    rw [if_pos ⟨h1, h2⟩, hydrateEpisodeIds_calls,
      processShows_ghost TraktCache.epHydrateCalls (fun _ _ _ => rfl)]
  · intro calls
    induction calls with
    | nil =>
      intro c
      cases hc : c.historyHydrated
      · simp
      · simp
    | cons pr rest ih =>
      intro c
      rw [List.foldl_cons]
      refine Nat.le_trans (ih (hydrateEpisodeIds c pr.1 pr.2)) ?_
      rw [hydrateEpisodeIds_hydrated]
      cases hc : c.historyHydrated
      · rw [hydrateEpisodeIds_runs_of_fresh c pr.1 pr.2 hc]
        simp
      · rw [hydrateEpisodeIds_runs_of_hydrated c pr.1 pr.2 hc]

/-- Witness for C6: a snapshot with one watched episode carrying no TMDB id
(coverage 0% < 60%) triggers the backfill; a backfill on a fresh cache sets
the flag; two successive backfill invocations execute at most once. -/
theorem backfill_once_per_lifetime_witness :
    (0 < (processShows { initialCache with watchedEpisodes := [], watchedMovies := [] }
          [⟨"B", [(some 1, [(some 1, none)])]⟩]).2
      ∧ 5 * (processShows { initialCache with watchedEpisodes := [], watchedMovies := [] }
            [⟨"B", [(some 1, [(some 1, none)])]⟩]).1.episodeTmdbIds.length
          < 3 * Nat.max 1 (processShows { initialCache with
              watchedEpisodes := [], watchedMovies := [] }
              [⟨"B", [(some 1, [(some 1, none)])]⟩]).2
      ∧ initialCache.epHydrateCalls + 1
          ≤ (cacheWatchedHistory initialCache [⟨"B", [(some 1, [(some 1, none)])]⟩] [] none
              [] none [] none).epHydrateCalls)
    ∧ (hydrateEpisodeIds initialCache [some 5] none).historyHydrated = true
    ∧ ([([some 5], none), ([some 6], none)].foldl
          (fun a pr => hydrateEpisodeIds a pr.1 pr.2) initialCache).epHydrateRuns
        ≤ initialCache.epHydrateRuns + (if initialCache.historyHydrated then 0 else 1) :=
  ⟨⟨by decide, by decide,
      backfill_once_per_lifetime.1 initialCache [⟨"B", [(some 1, [(some 1, none)])]⟩] [] [] none
        [] none (by decide) (by decide)⟩,
    backfill_once_per_lifetime.2.1 initialCache [some 5] none,
    backfill_once_per_lifetime.2.2 [([some 5], none), ([some 6], none)] initialCache⟩

/-- Witness for C7 at a concrete pending list of 120 episodes. -/
theorem episode_batches_shape_witness :
    ((List.replicate 120 (0 : Nat)).length = 120)
    ∧ ((chunksList 50 (List.replicate 120 (0 : Nat))).map List.length = [50, 50, 20]
      ∧ syncEpisodesTrace 50 (List.replicate 120 (0 : Nat)) =
          [SyncEv.rateLimit, SyncEv.submit 50, SyncEv.rateLimit, SyncEv.submit 50,
           SyncEv.rateLimit, SyncEv.submit 20]) :=
  ⟨by decide, episode_batches_shape (List.replicate 120 (0 : Nat)) (by decide)⟩

/-- C1 (evaluation at the failing input).  Four batches of 50 episodes are
pending and every submission attempt raises an authentication-class error
("no response" / token-refresh failure).  The consecutive-auth-failure
threshold (3) is reached during the first batch and the remediation message
is printed, but the escalation exception is retried by the tenacity decorator
and, once attempts are exhausted, caught by the per-batch handler: the run
never aborts — all 4 batches are submitted (5 API attempts each, 20 in
total), contradicting the claimed abort before a 4th submission attempt.
Every item of every failed batch is, as claimed, recorded as failed (200 of
200) rather than silently lost. -/
theorem auth_failures_do_not_abort_run :
    (syncEpisodesBatches (fun _ => Attempt.authErr) [50, 50, 50, 50] initSync).submittedBatches
        = 4
    ∧ (syncEpisodesBatches (fun _ => Attempt.authErr) [50, 50, 50, 50] initSync).attemptsMade
        = 20
    ∧ (syncEpisodesBatches (fun _ => Attempt.authErr) [50, 50, 50, 50] initSync).remediationShown
        = true
    ∧ (syncEpisodesBatches (fun _ => Attempt.authErr) [50, 50, 50, 50] initSync).failedCount
        = 200 := by decide

/-- The spec's end-to-end classification example: three raw records. -/
def exampleRecords : List (String × String) :=
  [("Drama: Episode 1", "2023-01-01"), ("Drama: Episode 2", "2023-01-02"),
   ("Solo Film: A Hero Rises", "2023-01-03")]

/-- The history after classifying the three example records (before
ambiguity resolution). -/
def exampleParsed : NfHistory :=
  exampleRecords.foldl (fun h r => (addEntry demoParse h r.1 r.2).1) emptyHistory

/-- The history after ambiguity resolution. -/
def exampleFinal : NfHistory :=
  resolveAmbiguousEntries demoParse exampleParsed

/-- C4 counterexample (to the mechanism clause).  The claim says the two
"Drama" records resolve as episodes via the repeated-show-name rule — a rule
that only acts on records in the ambiguity queue.  In the code,
`isLikelyTvShow` classifies "Drama: Episode 1" as a confident episode (the
`Episode \d+` indicator) with an empty confirmed-show set, so neither "Drama"
record is ever queued: after the classification pass the queue holds only the
"Solo Film" record, while both "Drama" episodes already exist.  The
repeated-show-name rule therefore never touches them, refuting the claim as
stated on its own input. -/
theorem classify_example_mechanism_cex :
    exampleParsed.ambiguousEntries.map PendingRecord.showName = ["Solo Film"]
    ∧ isLikelyTvShow [] "Drama" "Episode 1" = some true
    ∧ (getShow exampleParsed "Drama").map
        (fun sh => sh.seasons.map (fun se => se.episodes.map NfEpisode.name))
      = some [["Episode 1", "Episode 2"]] := by decide

/-- C4 (amended).  Classifying the three example records into an empty
history and resolving ambiguity yields exactly one show "Drama" with two
episodes in season 1 and exactly one movie named by the full original title
"Solo Film: A Hero Rises" — but the two "Drama" records are classified as
episodes immediately by the episode-indicator heuristic
(title contains "Episode <number>"), not via the repeated-show-name rule;
only the "Solo Film" record is deferred as ambiguous, and it resolves to a
movie. -/
theorem classify_example_outcome :
    exampleFinal.shows =
      [⟨"Drama",
        [⟨1, none,
          [⟨"Episode 1", none, none, ["2023-01-01T20:15:00.00Z"]⟩,
           ⟨"Episode 2", none, none, ["2023-01-02T20:15:00.00Z"]⟩]⟩]⟩]
    ∧ exampleFinal.movies =
      [⟨"Solo Film: A Hero Rises", none, ["2023-01-03T20:15:00.00Z"]⟩]
    ∧ exampleFinal.ambiguousEntries = [] := by decide

theorem addEntry_of_p1 (parse : String → Option String) (h : NfHistory) (title d : String)
    (a : String) (n : Nat) (b : String) (hm : matchSeasonNum title.data = some (a, n, b)) :
    (addEntry parse h title d).1 = addTvShowEntry parse h a (some n) b d none := by
  unfold addEntry
  rw [hm]

theorem addTvShowEntry_empty (parse : String → Option String) (a : String) (n : Nat)
    (b d : String) (movies : List NfMovie) (known : List String) (amb : List PendingRecord)
    (st : ClassStats) (hd : dateInvalid d = false) :
    addTvShowEntry parse ⟨[], movies, known, amb, st⟩ a (some n) b d none =
      ⟨[⟨a, [⟨n, none, [⟨b, none, none, (addWatchedDate parse [] d).1⟩]⟩]⟩], movies,
        insertNew known a, amb, { st with episodesCertain := st.episodesCertain + 1 }⟩ := by
  unfold addTvShowEntry
  rw [hd]
  simp only [Bool.false_eq_true, if_false]
  rfl

theorem addTvShowEntry_singleton (parse : String → Option String) (a : String) (n : Nat)
    (b d : String) (tm num : Option Nat) (w : List String) (movies : List NfMovie)
    (known : List String) (amb : List PendingRecord) (st : ClassStats)
    (hd : dateInvalid d = false) :
    addTvShowEntry parse ⟨[⟨a, [⟨n, none, [⟨b, tm, num, w⟩]⟩]⟩], movies, known, amb, st⟩
        a (some n) b d none =
      ⟨[⟨a, [⟨n, none, [⟨b, tm, num, (addWatchedDate parse w d).1⟩]⟩]⟩], movies,
        insertNew known a, amb, { st with episodesCertain := st.episodesCertain + 1 }⟩ := by
  unfold addTvShowEntry
  rw [hd]
  simp only [Bool.false_eq_true, if_false, withShow, withSeason, withEpisode, mapFirst,
    Option.getD_some, beq_self_eq_true, if_true, Option.isSome_some, Option.isSome_none,
    Bool.or_false, Bool.true_or]

theorem addEntry_fold_p1 (parse : String → Option String) (title : String) (a : String)
    (n : Nat) (b : String) (hm : matchSeasonNum title.data = some (a, n, b)) :
    ∀ (ds : List String), (∀ d ∈ ds, dateInvalid d = false) →
    ∀ (w : List String) (tm num : Option Nat) (movies : List NfMovie) (known : List String)
      (amb : List PendingRecord) (st : ClassStats),
      ((ds.foldl (fun h d => (addEntry parse h title d).1)
          ⟨[⟨a, [⟨n, none, [⟨b, tm, num, w⟩]⟩]⟩], movies, known, amb, st⟩).shows
        = [⟨a, [⟨n, none,
            [⟨b, tm, num, ds.foldl (fun w d => (addWatchedDate parse w d).1) w⟩]⟩]⟩])
      ∧ ((ds.foldl (fun h d => (addEntry parse h title d).1)
          ⟨[⟨a, [⟨n, none, [⟨b, tm, num, w⟩]⟩]⟩], movies, known, amb, st⟩).movies = movies)
      ∧ ((ds.foldl (fun h d => (addEntry parse h title d).1)
          ⟨[⟨a, [⟨n, none, [⟨b, tm, num, w⟩]⟩]⟩], movies, known, amb, st⟩).ambiguousEntries
        = amb) := by
  intro ds
  induction ds with
  | nil => intro _ w tm num movies known amb st; exact ⟨rfl, rfl, rfl⟩
  | cons d rest ih =>
    intro hds w tm num movies known amb st
    have hd : dateInvalid d = false := hds d (List.mem_cons_self d rest)
    have hstep : (addEntry parse
        ⟨[⟨a, [⟨n, none, [⟨b, tm, num, w⟩]⟩]⟩], movies, known, amb, st⟩ title d).1
        = ⟨[⟨a, [⟨n, none, [⟨b, tm, num, (addWatchedDate parse w d).1⟩]⟩]⟩], movies,
            insertNew known a, amb, { st with episodesCertain := st.episodesCertain + 1 }⟩ := by
      rw [addEntry_of_p1 parse _ title d a n b hm]
      exact addTvShowEntry_singleton parse a n b d tm num w movies known amb st hd
    rw [List.foldl_cons, List.foldl_cons, hstep]
    exact ih (fun x hx => hds x (List.mem_cons_of_mem d hx)) _ tm num movies _ amb _

/-- C5.  For every title matching pattern 1 (`"<A>: <words> <season#>: <B>"`)
and valid dates, a first `addEntry` into an empty history creates exactly one
show named `A` holding exactly one season numbered as extracted holding
exactly one episode named `B`, and every further `addEntry` with the same
title (hence the same show/season/episode-name triple) creates no duplicate
show, season or episode entity: the resulting history holds that single
entity chain whose watched set is just the accumulated timestamp
insertions — and no movie. -/
theorem pattern1_entity_creation (parse : String → Option String) (title : String)
    (a : String) (n : Nat) (b : String) (d0 : String) (ds : List String)
    (hm : matchSeasonNum title.data = some (a, n, b))
    (hd0 : dateInvalid d0 = false)
    (hds : ∀ d ∈ ds, dateInvalid d = false) :
    ((ds.foldl (fun h d => (addEntry parse h title d).1)
        (addEntry parse emptyHistory title d0).1).shows
      = [⟨a, [⟨n, none, [⟨b, none, none,
          ds.foldl (fun w d => (addWatchedDate parse w d).1)
            (addWatchedDate parse [] d0).1⟩]⟩]⟩])
    ∧ ((ds.foldl (fun h d => (addEntry parse h title d).1)
        (addEntry parse emptyHistory title d0).1).movies = []) := by
  have h0 : (addEntry parse emptyHistory title d0).1
      = ⟨[⟨a, [⟨n, none, [⟨b, none, none, (addWatchedDate parse [] d0).1⟩]⟩]⟩], [],
          insertNew [] a, [],
          { emptyHistory.stats with episodesCertain := emptyHistory.stats.episodesCertain + 1 }⟩ := by
    rw [addEntry_of_p1 parse emptyHistory title d0 a n b hm]
    exact addTvShowEntry_empty parse a n b d0 [] [] [] emptyHistory.stats hd0
  rw [h0]
  have h := addEntry_fold_p1 parse title a n b hm ds hds (addWatchedDate parse [] d0).1
    none none [] (insertNew [] a) []
    { emptyHistory.stats with episodesCertain := emptyHistory.stats.episodesCertain + 1 }
  exact ⟨h.1, h.2.1⟩

/-- Witness for C5: the title "Drama: Season 1: Pilot" (pattern 1, extracting
show "Drama", season 1, episode "Pilot") with one creating date and two
further dates, one of them a repeat. -/
theorem pattern1_entity_creation_witness :
    (matchSeasonNum "Drama: Season 1: Pilot".data = some ("Drama", 1, "Pilot"))
    ∧ (dateInvalid "2023-01-01" = false)
    ∧ (∀ d ∈ ["2023-01-01", "2023-01-02"], dateInvalid d = false)
    ∧ (((["2023-01-01", "2023-01-02"].foldl
          (fun h d => (addEntry demoParse h "Drama: Season 1: Pilot" d).1)
          (addEntry demoParse emptyHistory "Drama: Season 1: Pilot" "2023-01-01").1).shows
        = [⟨"Drama", [⟨1, none, [⟨"Pilot", none, none,
            ["2023-01-01", "2023-01-02"].foldl
              (fun w d => (addWatchedDate demoParse w d).1)
              (addWatchedDate demoParse [] "2023-01-01").1⟩]⟩]⟩])
      ∧ ((["2023-01-01", "2023-01-02"].foldl
          (fun h d => (addEntry demoParse h "Drama: Season 1: Pilot" d).1)
          (addEntry demoParse emptyHistory "Drama: Season 1: Pilot" "2023-01-01").1).movies
        = [])) :=
  ⟨by decide, by decide, by decide,
    pattern1_entity_creation demoParse "Drama: Season 1: Pilot" "Drama" 1 "Pilot"
      "2023-01-01" ["2023-01-01", "2023-01-02"] (by decide) (by decide) (by decide)⟩

end N2T
